import Mathlib

/-!
# Verification of the skywalker WebRTC broadcast relay core

A shallow embedding of the signaling core of the SB-IM/skywalker repository:

* `Skywalker.Publisher` embeds `internal/broadcast/publisher/publisher.go`
  (the MQTT-side publisher signaler, `handleMessage` / `registerSession`);
* `Skywalker.Subscriber` embeds the subscriber signaler
  (`processMessage` / `replyErr` of the subscriber package): the per-event
  dispatch of the web-socket read loop.

External effects (protobuf/JSON (un)marshalling, the WebRTC peer engine, the
MQTT publish acknowledgment, web-socket writes) are modelled as oracle inputs
carrying the *outcome* the external call produced; the control flow that
consumes those outcomes is translated from the Go source line by line.
Side effects (broker publishes, registry stores, socket writes, channel
pushes) are reified as explicit action traces so that ordering and
absence-of-effect properties can be stated.
-/

set_option autoImplicit false

namespace Skywalker

/-- Go's `strconv.Itoa` applied to an `int` holding a (possibly unknown)
`pb.TrackSource` value: decimal representation, `-` sign for negatives. -/
def itoa (i : Int) : String := toString i

/-- A relay track handle (`*webrtc.TrackLocalStaticRTP`); the relay only
stores and passes these around, so an abstract handle suffices. -/
abbrev RelayTrack := Nat

/-- The shared session registry (`sessions *sync.Map`), modelled as an
association list from session key to relay track.  `sync.Map.Store`
replaces an existing binding; `Load` finds the binding if present. -/
abbrev Registry := List (String × RelayTrack)

namespace Registry

/-- `sessions.Store k v`: replace the binding for `k` or add a new one. -/
def store (k : String) (v : RelayTrack) : Registry → Registry
  | [] => [(k, v)]
  | (k', v') :: rest => if k' = k then (k, v) :: rest else (k', v') :: store k v rest

/-- `sessions.Load k`: the current binding for `k`, if any. -/
def load (k : String) : Registry → Option RelayTrack
  | [] => none
  | (k', v) :: rest => if k' = k then some v else load k rest

end Registry

/-- `pb.Meta`: metadata of subscriber-side payloads.  `TrackSource` is an
open protobuf enum carried as an integer (`DRONE = 0`, `MONITOR = 1`, but
JSON decoding accepts any integer value). -/
structure Meta where
  id : String
  trackSource : Int
  deriving Repr, DecidableEq

/-- `pb.SessionDescription` as received by the publisher over MQTT:
`{id, track_source, sdp}`. -/
structure SessionDescription where
  id : String
  trackSource : Int
  sdp : String
  deriving Repr, DecidableEq

namespace Publisher

/-- The fields of `cfg.PublisherConfigOptions` that `handleMessage` reads.
`Qos` is a `uint` config field (a `UintFlag` in cmd.go); the publisher
converts it with `byte(p.config.Qos)` at each use. -/
structure Config where
  offerTopic : String
  answerTopicPrefix : String
  qos : Nat
  retained : Bool
  deriving Repr

/-- Outcome of `signalPeerConnection` (peer-engine ingest binding): either
an error, or the answer SDP together with the freshly created video track. -/
inductive SignalResult where
  | fail
  | ok (answer : SessionDescription) (track : RelayTrack)
  deriving Repr, DecidableEq

/-- Outcome of the broker publish: the token's `t.Error()` after `<-t.Done()`. -/
inductive PublishOutcome where
  | pubFail
  | pubOk
  deriving Repr, DecidableEq

/-- The outcomes of the external calls made by one run of the publisher's
`handleMessage` body, in program order:
`proto.Unmarshal` of the inbound payload, `signalPeerConnection`,
`proto.Marshal` of the answer, and the broker publish acknowledgment. -/
structure Env where
  unmarshal : Option SessionDescription
  signal : SignalResult
  marshal : Option String
  publish : PublishOutcome
  deriving Repr

/-- The externally visible effects of the handler, in program order. -/
inductive Action where
  | publish (topic : String) (qos : Nat) (retained : Bool) (payload : String)
  | store (key : String) (track : RelayTrack)
  deriving Repr, DecidableEq

/-- `registerSession` (publisher.go:131-139): derive the session key
`id + strconv.Itoa(int(trackSource))` and `Store` it in the shared map. -/
def sessionKey (id : String) (trackSource : Int) : String :=
  id ++ itoa trackSource

/-- The body of the publisher's `handleMessage` closure
(publisher.go:65-104), as a function from the inbound message's external
outcomes and the current registry to the action trace and the new registry:

1. `proto.Unmarshal` fails → log and return (no actions);
2. `signalPeerConnection` fails → log and return;
3. `proto.Marshal` of the answer fails → log and return;
4. publish the answer on
   `AnswerTopicPrefix + "/" + offer.Id + "/" + strconv.Itoa(int(offer.TrackSource))`
   at `byte(p.config.Qos)` — the `uint` config value truncated to a byte,
   i.e. `qos % 256` — with the configured retained flag, then `<-t.Done()`;
   on publish error → log and return;
5. `registerSession(offer.Id, offer.TrackSource, videoTrack)`. -/
def handleMessage (cfg : Config) (env : Env) (reg : Registry) :
    List Action × Registry :=
  match env.unmarshal with
  | none => ([], reg)
  | some offer =>
    match env.signal with
    | .fail => ([], reg)
    | .ok _answer track =>
      match env.marshal with
      | none => ([], reg)
      | some payload =>
        let answerTopic := cfg.answerTopicPrefix ++ "/" ++ offer.id ++ "/" ++ itoa offer.trackSource
        let pubAct := Action.publish answerTopic (cfg.qos % 256) cfg.retained payload
        match env.publish with
        | .pubFail => ([pubAct], reg)
        | .pubOk =>
          let key := sessionKey offer.id offer.trackSource
          ([pubAct, Action.store key track], Registry.store key track reg)

end Publisher

/-- `pb.TrackSource_DRONE` (wire value 0). -/
def DRONE : Int := 0

/-- `pb.TrackSource_MONITOR` (wire value 1). -/
def MONITOR : Int := 1

namespace Subscriber

/-- The fields of the subscriber-side `pb.SessionDescription` JSON payload
that `processMessage` reads: `Meta` (a nullable pointer) and `Sdp`. -/
structure SubOffer where
  meta : Option Meta
  sdp : String
  deriving Repr, DecidableEq

/-- The fields of `pb.ICECandidate` that `processMessage` reads. -/
structure ICECandidate where
  meta : Option Meta
  candidate : String
  deriving Repr, DecidableEq

/-- Modelled from the spec: the error taxonomy of §7 ("stable numeric codes
on the wire").  The `httpx` package defining `httpx.Code` and the error
constants is not part of the sources; the constructors are the constants
referenced by the subscriber (`ErrReadMessage`, `ErrUnmarshalJSON`,
`ErrIncorrectMetadata`, `ErrMetadataNotMatched`,
`ErrFailedToCreateSubscriber`). -/
inductive Code where
  | readMessage
  | unmarshalJSON
  | incorrectMetadata
  | metadataNotMatched
  | failedToCreateSubscriber
  deriving Repr, DecidableEq

/-- Modelled from the spec: the `httpx.Errors` code-to-message map (not in
the sources); the message text accompanying each code.  No claim depends on
the exact strings. -/
def Errors : Code → String
  | .readMessage => "could not read message"
  | .unmarshalJSON => "could not unmarshal JSON"
  | .incorrectMetadata => "incorrect metadata"
  | .metadataNotMatched => "metadata not matched"
  | .failedToCreateSubscriber => "failed to create subscriber"

/-- The payload of an outgoing web-socket message: an error record
(`replyErr`'s anonymous `data` struct), a `pb.SessionDescription`
(`video-answer`), or a `pb.ICECandidate` (outbound `new-ice-candidate`). -/
inductive OutData where
  | err (meta : Option Meta) (code : Code) (msg : String)
  | sdp (meta : Option Meta) (sdpStr : String)
  | cand (meta : Option Meta) (candidate : String)
  deriving Repr, DecidableEq

/-- `outgoingMessage`: the generic WebSocket outgoing message
`{event, id, data}`.  A Go struct literal that omits `ID` leaves it at the
zero value `""`. -/
structure OutgoingMessage where
  event : String
  id : String
  data : OutData
  deriving Repr, DecidableEq

/-- `replyErr` (subscriber source, lines 240-255): the uniform error event
reply, `{Event: "error", ID: id, Data: {Meta: meta, Code: code, Msg: Errors[code]}}`. -/
def replyErr (id : String) (meta : Option Meta) (code : Code) : OutgoingMessage :=
  { event := "error", id := id, data := .err meta code (Errors code) }

/-- The two per-connection candidate queues: the keys of the
`candidateChan` map literal (lines 91-94), one channel per track source. -/
inductive Queue where
  | drone
  | monitor
  deriving Repr, DecidableEq

/-- The keys of the `candidateChan` map, in the order of the map literal. -/
def candidateChanKeys : List Queue := [Queue.drone, Queue.monitor]

/-- The buffer capacity of each candidate channel: both are
`make(chan string, 2)` ("because we send candidate at least twice"). -/
def candidateQueueCapacity : Queue → Nat
  | .drone => 2
  | .monitor => 2

/-- Go map indexing `candidateChan[ts]`: the channel stored under the key,
or the zero value (`nil` channel) when `ts` is not one of the two keys. -/
def queueFor (ts : Int) : Option Queue :=
  if ts = DRONE then some .drone else if ts = MONITOR then some .monitor else none

/-- `sessionID := x.Meta.Id + strconv.Itoa(int(x.Meta.TrackSource))`
(lines 125 and 181): the subscriber's session-key derivation. -/
def sessionKey (id : String) (trackSource : Int) : String :=
  id ++ itoa trackSource

/-- The observable actions of one iteration of the subscriber read loop:
a `wsjson.Write` of an envelope (including the writes attempted by
`replyErr`), the `webrtcx.New` fan-out peer creation (recording which
candidate queue its `recvCandidate` was wired to), and a send on one of
the candidate channels. -/
inductive SubAction where
  | wrote (m : OutgoingMessage)
  | createdPeer (recvQueue : Option Queue)
  | pushed (q : Queue) (candidate : String)
  deriving Repr, DecidableEq

/-- Outcomes of the external calls the `video-offer` branch makes, in
program order: `json.Unmarshal(msg.Data, &offer)`, `json.Unmarshal`
of `offer.Sdp`, `wcx.CreateSubscriber`, `json.Marshal` of the answer
received on `SignalChan`, and the `wsjson.Write` of the answer. -/
structure OfferOracles where
  parsed : Option SubOffer
  sdpOk : Bool
  createOk : Bool
  answer : Option String
  writeOk : Bool
  deriving Repr, DecidableEq

/-- Outcomes of the external calls the `new-ice-candidate` branch makes:
`json.Unmarshal(msg.Data, &candidate)` and the `candidateInit.Candidate`
string produced by `json.Unmarshal(candidate.Candidate)` (`none` when that
unmarshal fails). -/
structure CandidateOracles where
  parsed : Option ICECandidate
  initCandidate : Option String
  deriving Repr, DecidableEq

/-- `incomingMessage` as dispatched on: `Event` and `ID` (the `Data` field
is consumed only through the parse oracles). -/
structure IncomingMessage where
  event : String
  id : String
  deriving Repr, DecidableEq

/-- One read outcome delivered to the loop: either `wsjson.Read` failed
(`msg` keeps its zero value), or a message arrived together with the
outcomes of the external calls its branch will make. -/
inductive EventInput where
  | readFail
  | evt (msg : IncomingMessage) (off : OfferOracles) (cand : CandidateOracles)
  deriving Repr, DecidableEq

/-- One iteration of the subscriber read loop (lines 101-202): the body of
`for { ... }` in `processMessage`, translated branch by branch.  Returns
the action trace of the iteration and whether the branch executed `return`
(terminating the handler) before reaching the `select` at the bottom.

* read failure → `replyErr(msg.ID, nil, ErrReadMessage)` and return
  (`msg.ID` is the zero value `""`);
* `"video-offer"`: unmarshal → meta nil/empty check → registry `Load`
  (miss → `MetadataNotMatched`) → `webrtcx.New` with
  `recvCandidate(candidateChan[meta.TrackSource])` → sdp unmarshal →
  `CreateSubscriber` → answer marshal → `wsjson.Write` of a
  `video-answer` envelope whose `ID` field is omitted (zero value `""`);
* `"new-ice-candidate"`: unmarshal → meta nil/empty check → registry
  `Load` → candidate-init unmarshal → send on `candidateChan[DRONE]` if
  `TrackSource == DRONE`, else on `candidateChan[MONITOR]`;
* any other event: log and ignore. -/
def stepEvent (sessions : Registry) (e : EventInput) : List SubAction × Bool :=
  match e with
  | .readFail => ([.wrote (replyErr "" none .readMessage)], true)
  | .evt msg off cand =>
    if msg.event = "video-offer" then
      match off.parsed with
      | none => ([.wrote (replyErr msg.id none .unmarshalJSON)], true)
      | some offer =>
        match offer.meta with
        | none => ([.wrote (replyErr msg.id none .incorrectMetadata)], true)
        | some m =>
          if m.id = "" then
            ([.wrote (replyErr msg.id none .incorrectMetadata)], true)
          else
            match Registry.load (sessionKey m.id m.trackSource) sessions with
            | none => ([.wrote (replyErr msg.id (some m) .metadataNotMatched)], true)
            | some _value =>
              let peer := SubAction.createdPeer (queueFor m.trackSource)
              if off.sdpOk = false then
                ([peer, .wrote (replyErr msg.id (some m) .unmarshalJSON)], true)
              else if off.createOk = false then
                ([peer, .wrote (replyErr msg.id (some m) .failedToCreateSubscriber)], true)
              else
                match off.answer with
                | none => ([peer, .wrote (replyErr msg.id (some m) .unmarshalJSON)], true)
                | some b =>
                  let ans : OutgoingMessage :=
                    { event := "video-answer", id := "", data := .sdp (some m) b }
                  if off.writeOk then ([peer, .wrote ans], false)
                  else ([peer, .wrote ans], true)
    else if msg.event = "new-ice-candidate" then
      match cand.parsed with
      | none => ([.wrote (replyErr msg.id none .unmarshalJSON)], true)
      | some c =>
        match c.meta with
        | none => ([.wrote (replyErr msg.id none .incorrectMetadata)], true)
        | some m =>
          if m.id = "" then
            ([.wrote (replyErr msg.id none .incorrectMetadata)], true)
          else
            match Registry.load (sessionKey m.id m.trackSource) sessions with
            | none => ([.wrote (replyErr msg.id (some m) .metadataNotMatched)], true)
            | some _value =>
              match cand.initCandidate with
              | none => ([.wrote (replyErr msg.id (some m) .unmarshalJSON)], true)
              | some s =>
                if m.trackSource = DRONE then ([.pushed .drone s], false)
                else ([.pushed .monitor s], false)
    else
      ([], false)

/-- `processMessage` (lines 90-210) over the stream of read outcomes that
the socket delivers before the connection context is cancelled.  The
`select` at the bottom of the loop body (lines 204-208) has the single
case `<-ctx.Done()` and no `default`, so when an iteration finishes
without `return`, the handler blocks in the `select` until the context is
cancelled and then returns: control never reaches the loop head again, and
every read outcome after the first is left unread.  The second component
is the number of read outcomes consumed. -/
def processMessage (sessions : Registry) (events : List EventInput) :
    List SubAction × Nat :=
  match events with
  | [] => ([], 0)
  | e :: _ => ((stepEvent sessions e).1, 1)

end Subscriber

end Skywalker

namespace Skywalker

/-! ## Sample inputs used by witness and counterexample theorems -/

/-- A publisher configuration with the repository's default topics. -/
def cfgA : Publisher.Config :=
  ⟨"/edge/livestream/signal/offer", "/edge/livestream/signal/answer", 0, false⟩

/-- A well-formed edge offer for `(drone-A, DRONE)`. -/
def offerA : SessionDescription := ⟨"drone-A", 0, "offer-sdp"⟩

/-- The answer produced for `offerA`. -/
def answerA : SessionDescription := ⟨"drone-A", 0, "answer-sdp"⟩

/-- Publisher environment in which every external call succeeds. -/
def envOk : Publisher.Env := ⟨some offerA, .ok answerA 7, some "payload", .pubOk⟩

/-- Publisher environment in which only the broker publish fails. -/
def envPubFail : Publisher.Env := ⟨some offerA, .ok answerA 7, some "payload", .pubFail⟩

/-- Publisher environment in which the payload does not unmarshal. -/
def envBad : Publisher.Env := ⟨none, .fail, none, .pubFail⟩

-- sanity checks of the embedding on concrete inputs
example :
    Publisher.handleMessage
      ⟨"/edge/livestream/signal/offer", "/edge/livestream/signal/answer", 0, false⟩
      ⟨some ⟨"drone-A", 0, "sdp"⟩, .ok ⟨"drone-A", 0, "answer"⟩ 7, some "bytes", .pubOk⟩
      []
    = ([.publish "/edge/livestream/signal/answer/drone-A/0" 0 false "bytes",
        .store "drone-A0" 7], [("drone-A0", 7)]) := by
  decide

example :
    Publisher.handleMessage
      ⟨"o", "a", 1, true⟩
      ⟨some ⟨"d", 1, "s"⟩, .ok ⟨"d", 1, "x"⟩ 3, some "p", .pubFail⟩
      [("k", 9)]
    = ([.publish "a/d/1" 1 true "p"], [("k", 9)]) := by
  decide

end Skywalker

namespace Skywalker

/-! ## Publisher claims -/

/-- Claim C1: for every publisher offer message, the handler publishes the
answer to the broker and waits for publish completion before writing the
(session key, relay track) entry into the session registry; if the publish
fails, the registry is not written for that message.  Concretely: a `store`
action occurs in the trace only as the second action, right after the
`publish` action, and only when the publish acknowledgment reported
success; on publish failure the registry is returned unchanged and no
`store` action occurs. -/
theorem publish_precedes_register (cfg : Publisher.Config) (env : Publisher.Env)
    (reg : Registry) :
    ((∃ k t, Publisher.Action.store k t ∈ (Publisher.handleMessage cfg env reg).1) →
      env.publish = .pubOk ∧
      ∃ topic q r p k t,
        (Publisher.handleMessage cfg env reg).1 =
          [Publisher.Action.publish topic q r p, Publisher.Action.store k t]) ∧
    (env.publish = .pubFail →
      (Publisher.handleMessage cfg env reg).2 = reg ∧
      ∀ k t, Publisher.Action.store k t ∉ (Publisher.handleMessage cfg env reg).1) := by
  obtain ⟨u, s, mar, pub⟩ := env
  cases u <;> cases s <;> cases mar <;> cases pub <;>
    simp [Publisher.handleMessage]

theorem publish_precedes_register_witness :
    (envOk.publish = .pubOk ∧
      ∃ topic q r p k t,
        (Publisher.handleMessage cfgA envOk []).1 =
          [Publisher.Action.publish topic q r p, Publisher.Action.store k t]) ∧
    ((Publisher.handleMessage cfgA envPubFail []).2 = [] ∧
      ∀ k t, Publisher.Action.store k t ∉ (Publisher.handleMessage cfgA envPubFail []).1) :=
  ⟨(publish_precedes_register cfgA envOk []).1 ⟨"drone-A0", 7, by decide⟩,
   (publish_precedes_register cfgA envPubFail []).2 rfl⟩

/-- Claim C2: every failure before the registry write — payload unmarshal
failure, peer-connection signaling failure, answer marshal failure, or
broker publish failure — makes the handler return without storing anything
in the session registry: the registry is returned exactly as it was and the
trace contains no `store` action. -/
theorem failure_leaves_registry (cfg : Publisher.Config) (env : Publisher.Env)
    (reg : Registry)
    (h : env.unmarshal = none ∨ env.signal = .fail ∨ env.marshal = none ∨
      env.publish = .pubFail) :
    (Publisher.handleMessage cfg env reg).2 = reg ∧
    ∀ k t, Publisher.Action.store k t ∉ (Publisher.handleMessage cfg env reg).1 := by
  obtain ⟨u, s, mar, pub⟩ := env
  cases u <;> cases s <;> cases mar <;> cases pub <;>
    simp_all [Publisher.handleMessage]

theorem failure_leaves_registry_witness :
    (Publisher.handleMessage cfgA envBad [("k", 9)]).2 = [("k", 9)] ∧
    ∀ k t, Publisher.Action.store k t ∉ (Publisher.handleMessage cfgA envBad [("k", 9)]).1 :=
  failure_leaves_registry cfgA envBad [("k", 9)] (Or.inl rfl)

/-- A publisher configuration whose QoS config value does not fit in a
byte: `byte(256) = 0`. -/
def cfg256 : Publisher.Config :=
  ⟨"/edge/livestream/signal/offer", "/edge/livestream/signal/answer", 256, false⟩

/-- Counterexample to claim C4: with the QoS configured as `256`, a
successfully processed offer is published at QoS `byte(256) = 0`, not at
the configured QoS — the `byte(p.config.Qos)` conversion at the publish
call wraps the `uint` config value modulo 256. -/
theorem configured_qos_not_published :
    (Publisher.handleMessage cfg256 envOk []).1 =
      [Publisher.Action.publish "/edge/livestream/signal/answer/drone-A/0" 0 false "payload",
       Publisher.Action.store "drone-A0" 7] ∧
    (0 : Nat) ≠ 256 := by
  decide

/-- Claim C4 as amended: every successfully processed publisher offer
publishes the answer on exactly the topic `answerTopicPrefix ++ "/" ++
offer.id ++ "/" ++ itoa offer.trackSource` (the decimal integer encoding
of the track source), with the configured retained flag and the configured
QoS truncated to a byte (`qos % 256`) — the trace holds that single
publish action followed by the registry store; whenever the configured QoS
fits in a byte (in particular for the legal MQTT values 0-2), the
published QoS is exactly the configured one. -/
theorem answer_topic_exact (cfg : Publisher.Config) (env : Publisher.Env)
    (reg : Registry) (offer answer : SessionDescription) (track : RelayTrack)
    (payload : String)
    (hu : env.unmarshal = some offer) (hs : env.signal = .ok answer track)
    (hm : env.marshal = some payload) (hp : env.publish = .pubOk) :
    ((Publisher.handleMessage cfg env reg).1 =
      [Publisher.Action.publish
         (cfg.answerTopicPrefix ++ "/" ++ offer.id ++ "/" ++ itoa offer.trackSource)
         (cfg.qos % 256) cfg.retained payload,
       Publisher.Action.store (Publisher.sessionKey offer.id offer.trackSource) track]) ∧
    (cfg.qos < 256 →
      (Publisher.handleMessage cfg env reg).1 =
        [Publisher.Action.publish
           (cfg.answerTopicPrefix ++ "/" ++ offer.id ++ "/" ++ itoa offer.trackSource)
           cfg.qos cfg.retained payload,
         Publisher.Action.store (Publisher.sessionKey offer.id offer.trackSource) track]) := by
  obtain ⟨u, s, mar, pub⟩ := env
  cases hu; cases hs; cases hm; cases hp
  refine ⟨by simp [Publisher.handleMessage], ?_⟩
  intro hq
  simp [Publisher.handleMessage, Nat.mod_eq_of_lt hq]

theorem answer_topic_exact_witness :
    (Publisher.handleMessage cfgA envOk []).1 =
      [Publisher.Action.publish
         (cfgA.answerTopicPrefix ++ "/" ++ offerA.id ++ "/" ++ itoa offerA.trackSource)
         cfgA.qos cfgA.retained "payload",
       Publisher.Action.store (Publisher.sessionKey offerA.id offerA.trackSource) 7] :=
  (answer_topic_exact cfgA envOk [] offerA answerA 7 "payload" rfl rfl rfl rfl).2 (by decide)

end Skywalker

namespace Skywalker

/-! ## Session-key claims -/

/-- Appending one-character suffixes to strings is cancellative: if the two
suffixes each hold exactly one character, equal concatenations force equal
prefixes and equal suffixes. -/
theorem append_single_char_inj (s t d e : String)
    (hd : d.data.length = 1) (he : e.data.length = 1)
    (h : s ++ d = t ++ e) : s = t ∧ d = e := by
  have h2 : s.data ++ d.data = t.data ++ e.data := by
    have h3 := congrArg String.data h
    simpa [String.data_append] using h3
  have h4 := List.append_inj' h2 (hd.trans he.symm)
  exact ⟨String.ext h4.1, String.ext h4.2⟩

/-- Claim C3: the session-key serialization is deterministic and
collision-free over all legal pairs — the publisher's derivation
(`registerSession`) and the subscriber's derivation (`processMessage`)
agree on every pair, and over non-empty device ids with track source in
`{DRONE, MONITOR}` two keys are equal exactly when the pairs are equal. -/
theorem sessionKey_collision_free :
    (∀ (id : String) (ts : Int),
      Publisher.sessionKey id ts = Subscriber.sessionKey id ts) ∧
    ∀ (id₁ : String) (ts₁ : Int) (id₂ : String) (ts₂ : Int),
      id₁ ≠ "" → id₂ ≠ "" →
      (ts₁ = DRONE ∨ ts₁ = MONITOR) → (ts₂ = DRONE ∨ ts₂ = MONITOR) →
      (Publisher.sessionKey id₁ ts₁ = Publisher.sessionKey id₂ ts₂ ↔
        (id₁ = id₂ ∧ ts₁ = ts₂)) := by
  constructor
  · intro id ts; rfl
  · intro id₁ ts₁ id₂ ts₂ h₁ h₂ hts₁ hts₂
    constructor
    · intro h
      have key : ∀ t : Int, (t = DRONE ∨ t = MONITOR) → (itoa t).data.length = 1 := by
        rintro t (rfl | rfl) <;> decide
      have hsp := append_single_char_inj id₁ id₂ (itoa ts₁) (itoa ts₂)
        (key _ hts₁) (key _ hts₂) h
      refine ⟨hsp.1, ?_⟩
      rcases hts₁ with rfl | rfl <;> rcases hts₂ with rfl | rfl
      · rfl
      · exact absurd hsp.2 (by decide)
      · exact absurd hsp.2 (by decide)
      · rfl
    · rintro ⟨rfl, rfl⟩; rfl

theorem sessionKey_collision_free_witness :
    Publisher.sessionKey "drone-A" DRONE = Publisher.sessionKey "monitor-B" MONITOR ↔
      ("drone-A" = "monitor-B" ∧ DRONE = MONITOR) :=
  sessionKey_collision_free.2 "drone-A" DRONE "monitor-B" MONITOR
    (by decide) (by decide) (Or.inl rfl) (Or.inr rfl)

end Skywalker

namespace Skywalker

/-! ## Subscriber sample inputs -/

/-- A registry holding the ingest track for `(drone-A, DRONE)`. -/
def regA : Registry := [("drone-A0", 7)]

/-- A `video-offer` envelope with correlation id `corr-1`. -/
def msgOfferA : Subscriber.IncomingMessage := ⟨"video-offer", "corr-1"⟩

/-- Offer oracles in which every external call succeeds, for `(drone-A, DRONE)`. -/
def offOkA : Subscriber.OfferOracles :=
  ⟨some ⟨some ⟨"drone-A", 0⟩, "sdp-json"⟩, true, true, some "answer-json", true⟩

/-- Offer oracles in which the payload does not unmarshal. -/
def offNone : Subscriber.OfferOracles := ⟨none, true, true, some "answer-json", true⟩

/-- Offer oracles whose parsed offer carries a `nil` meta. -/
def offMetaNone : Subscriber.OfferOracles :=
  ⟨some ⟨none, "sdp-json"⟩, true, true, some "answer-json", true⟩

/-- Offer oracles for a session `(nobody, MONITOR)` absent from the registry. -/
def offMissA : Subscriber.OfferOracles :=
  ⟨some ⟨some ⟨"nobody", 1⟩, "sdp-json"⟩, true, true, some "answer-json", true⟩

/-- Offer oracles whose meta carries the out-of-enum track source `7`. -/
def offGhost : Subscriber.OfferOracles :=
  ⟨some ⟨some ⟨"ghost", 7⟩, "sdp-json"⟩, true, true, some "answer-json", true⟩

/-- Candidate oracles that are never consulted. -/
def candNone : Subscriber.CandidateOracles := ⟨none, none⟩

/-- Candidate oracles carrying the out-of-enum track source `5`. -/
def candOr5 : Subscriber.CandidateOracles :=
  ⟨some ⟨some ⟨"cam", 5⟩, "cand-json"⟩, some "cand-str"⟩

/-- A first well-formed `new-ice-candidate` read outcome for `(drone-A, DRONE)`. -/
def candEvtA : Subscriber.EventInput :=
  .evt ⟨"new-ice-candidate", "c-1"⟩ offNone
    ⟨some ⟨some ⟨"drone-A", 0⟩, "cand-json"⟩, some "cand-1"⟩

/-- A second well-formed `new-ice-candidate` read outcome for `(drone-A, DRONE)`. -/
def candEvtB : Subscriber.EventInput :=
  .evt ⟨"new-ice-candidate", "c-2"⟩ offNone
    ⟨some ⟨some ⟨"drone-A", 0⟩, "cand-json"⟩, some "cand-2"⟩

/-! ## Subscriber claims -/

/-- Claim C5: a subscriber `video-offer` whose session key has no registry
entry is answered with an `error` envelope of code `MetadataNotMatched`
whose meta equals the offer's meta (so `meta.id` equals the offered id),
the envelope being the only action, and no fan-out peer is created. -/
theorem miss_replies_metadata_not_matched (sessions : Registry)
    (msg : Subscriber.IncomingMessage) (off : Subscriber.OfferOracles)
    (cand : Subscriber.CandidateOracles) (offer : Subscriber.SubOffer) (m : Meta)
    (he : msg.event = "video-offer") (hp : off.parsed = some offer)
    (hm : offer.meta = some m) (hid : m.id ≠ "")
    (hload : Registry.load (Subscriber.sessionKey m.id m.trackSource) sessions = none) :
    Subscriber.stepEvent sessions (.evt msg off cand) =
      ([.wrote (Subscriber.replyErr msg.id (some m) .metadataNotMatched)], true) ∧
    ∀ q, Subscriber.SubAction.createdPeer q ∉
      (Subscriber.stepEvent sessions (.evt msg off cand)).1 := by
  have h : Subscriber.stepEvent sessions (.evt msg off cand) =
      ([.wrote (Subscriber.replyErr msg.id (some m) .metadataNotMatched)], true) := by
    simp [Subscriber.stepEvent, he, hp, hm, hid, hload]
  refine ⟨h, ?_⟩
  intro q
  rw [h]
  simp

theorem miss_replies_metadata_not_matched_witness :
    (Subscriber.stepEvent [] (.evt ⟨"video-offer", "v-1"⟩ offMissA candNone) =
      ([.wrote (Subscriber.replyErr "v-1" (some ⟨"nobody", 1⟩) .metadataNotMatched)], true)) ∧
    ∀ q, Subscriber.SubAction.createdPeer q ∉
      (Subscriber.stepEvent [] (.evt ⟨"video-offer", "v-1"⟩ offMissA candNone)).1 :=
  miss_replies_metadata_not_matched [] ⟨"video-offer", "v-1"⟩ offMissA candNone
    ⟨some ⟨"nobody", 1⟩, "sdp-json"⟩ ⟨"nobody", 1⟩ rfl rfl rfl (by decide) rfl

/-- Counterexample to claim C6: on a per-event error — here a JSON
unmarshal failure of a `video-offer` payload — the handler writes the
`error` envelope and then *returns* (second component `true`), so the
connection does not stay open for further events. -/
theorem handler_returns_on_unmarshal_error :
    Subscriber.stepEvent [] (.evt msgOfferA offNone candNone) =
      ([.wrote (Subscriber.replyErr "corr-1" none .unmarshalJSON)], true) := by
  decide

/-- Claim C6 as amended: every error detected while handling an event is
converted to an `error` envelope written back on the socket, but the
handler then returns instead of keeping the connection open — a read
failure writes the `ReadMessage` error and returns; whenever an `error`
envelope appears in an iteration's trace that iteration ends in `return`;
and an iteration ends in `return` only when it wrote an `error` envelope or
when the write of the `video-answer` itself failed (a transport failure). -/
theorem error_reply_then_return (sessions : Registry) (msg : Subscriber.IncomingMessage)
    (off : Subscriber.OfferOracles) (cand : Subscriber.CandidateOracles) :
    (Subscriber.stepEvent sessions .readFail =
      ([.wrote (Subscriber.replyErr "" none .readMessage)], true)) ∧
    (∀ out, Subscriber.SubAction.wrote out ∈
        (Subscriber.stepEvent sessions (.evt msg off cand)).1 →
      out.event = "error" →
      (Subscriber.stepEvent sessions (.evt msg off cand)).2 = true) ∧
    ((Subscriber.stepEvent sessions (.evt msg off cand)).2 = true →
      (∃ out, Subscriber.SubAction.wrote out ∈
          (Subscriber.stepEvent sessions (.evt msg off cand)).1 ∧
        out.event = "error") ∨ off.writeOk = false) := by
  refine ⟨rfl, ?_, ?_⟩ <;>
  · simp only [Subscriber.stepEvent]
    repeat' split
    all_goals intros
    all_goals simp_all [Subscriber.replyErr]

theorem error_reply_then_return_witness :
    (Subscriber.stepEvent [] Subscriber.EventInput.readFail =
      ([.wrote (Subscriber.replyErr "" none .readMessage)], true)) ∧
    (Subscriber.stepEvent [] (.evt msgOfferA offNone candNone)).2 = true :=
  ⟨(error_reply_then_return [] msgOfferA offNone candNone).1,
   (error_reply_then_return [] msgOfferA offNone candNone).2.1
     (Subscriber.replyErr "corr-1" none .unmarshalJSON) (by decide) rfl⟩

/-- Claim C7, evaluated at the failing input: with the track for
`(drone-A, DRONE)` registered and two well-formed `new-ice-candidate` read
outcomes queued on one connection, the handler consumes only the first
(the single-case `select` at the bottom of the loop body blocks on
`ctx.Done()` and then returns, so the loop head is never reached again);
in general no run of the loop consumes more than one read outcome. -/
theorem loop_reads_single_event :
    Subscriber.processMessage regA [candEvtA, candEvtB] =
      ([.pushed .drone "cand-1"], 1) ∧
    ∀ (sessions : Registry) (events : List Subscriber.EventInput),
      (Subscriber.processMessage sessions events).2 ≤ 1 := by
  refine ⟨by decide, ?_⟩
  intro sessions events
  cases events <;> simp [Subscriber.processMessage]

/-- Counterexample to claim C8: a `video-offer` whose meta carries the
out-of-enum track source `7` (neither `DRONE = 0` nor `MONITOR = 1`) is
*not* rejected with `IncorrectMetadata`: with a registry entry under the
derived key, the handler proceeds — it creates a fan-out peer (wired to no
candidate queue, since `candidateChan[7]` is the zero value) and sends a
`video-answer`, writing no `error` envelope at all. -/
theorem unknown_track_source_not_rejected :
    Subscriber.stepEvent [("ghost7", 4)] (.evt ⟨"video-offer", "g-1"⟩ offGhost candNone) =
      ([.createdPeer none,
        .wrote ⟨"video-answer", "", .sdp (some ⟨"ghost", 7⟩) "answer-json"⟩], false) := by
  decide

/-- Claim C8 as amended: the metadata validation rejects exactly a missing
meta or an empty `meta.id` — for both `video-offer` and
`new-ice-candidate` events such metadata draws an `error` envelope with
code `IncorrectMetadata` and the event is not processed further; the
track-source value is not validated. -/
theorem incorrect_metadata_reply (sessions : Registry) (msg : Subscriber.IncomingMessage)
    (off : Subscriber.OfferOracles) (cand : Subscriber.CandidateOracles) :
    (∀ offer, msg.event = "video-offer" → off.parsed = some offer → offer.meta = none →
      Subscriber.stepEvent sessions (.evt msg off cand) =
        ([.wrote (Subscriber.replyErr msg.id none .incorrectMetadata)], true)) ∧
    (∀ offer m, msg.event = "video-offer" → off.parsed = some offer →
      offer.meta = some m → m.id = "" →
      Subscriber.stepEvent sessions (.evt msg off cand) =
        ([.wrote (Subscriber.replyErr msg.id none .incorrectMetadata)], true)) ∧
    (∀ c, msg.event = "new-ice-candidate" → cand.parsed = some c → c.meta = none →
      Subscriber.stepEvent sessions (.evt msg off cand) =
        ([.wrote (Subscriber.replyErr msg.id none .incorrectMetadata)], true)) ∧
    (∀ c m, msg.event = "new-ice-candidate" → cand.parsed = some c →
      c.meta = some m → m.id = "" →
      Subscriber.stepEvent sessions (.evt msg off cand) =
        ([.wrote (Subscriber.replyErr msg.id none .incorrectMetadata)], true)) := by
  refine ⟨?_, ?_, ?_, ?_⟩ <;> (intros; simp_all [Subscriber.stepEvent])

theorem incorrect_metadata_reply_witness :
    Subscriber.stepEvent [] (.evt ⟨"video-offer", "w-1"⟩ offMetaNone candNone) =
      ([.wrote (Subscriber.replyErr "w-1" none .incorrectMetadata)], true) :=
  (incorrect_metadata_reply [] ⟨"video-offer", "w-1"⟩ offMetaNone candNone).1
    ⟨none, "sdp-json"⟩ rfl rfl rfl

/-- Counterexample to claim C9: a fully successful `video-offer` whose
inbound envelope id is the known, non-empty token `corr-1` is answered
with a `video-answer` envelope whose top-level id is `""` — the Go struct
literal omits the `ID` field — so the reply does not echo the inbound id. -/
theorem video_answer_id_not_echoed :
    (Subscriber.stepEvent regA (.evt msgOfferA offOkA candNone) =
      ([.createdPeer (some .drone),
        .wrote ⟨"video-answer", "", .sdp (some ⟨"drone-A", 0⟩) "answer-json"⟩], false)) ∧
    ("" : String) ≠ "corr-1" := by
  decide

/-- Claim C9 as amended: among the envelopes written back during one event,
every `error` envelope echoes the inbound envelope's id, while every
`video-answer` envelope carries the empty id (its `ID` field is left at the
zero value). -/
theorem reply_id_echo (sessions : Registry) (msg : Subscriber.IncomingMessage)
    (off : Subscriber.OfferOracles) (cand : Subscriber.CandidateOracles)
    (out : Subscriber.OutgoingMessage)
    (hmem : Subscriber.SubAction.wrote out ∈
      (Subscriber.stepEvent sessions (.evt msg off cand)).1) :
    (out.event = "error" → out.id = msg.id) ∧
    (out.event = "video-answer" → out.id = "") := by
  unfold Subscriber.stepEvent at hmem
  repeat' split at hmem
  all_goals simp_all [Subscriber.replyErr]

theorem reply_id_echo_witness :
    ((Subscriber.replyErr "corr-1" none .unmarshalJSON).event = "error" →
      (Subscriber.replyErr "corr-1" none .unmarshalJSON).id = msgOfferA.id) ∧
    ((Subscriber.replyErr "corr-1" none .unmarshalJSON).event = "video-answer" →
      (Subscriber.replyErr "corr-1" none .unmarshalJSON).id = "") :=
  reply_id_echo [] msgOfferA offNone candNone
    (Subscriber.replyErr "corr-1" none .unmarshalJSON) (by decide)

/-- Claim C10: each subscriber connection owns exactly the two candidate
queues keyed `DRONE` and `MONITOR`, each a channel of capacity 2, and the
deferred cleanup closes each of the two queues exactly once when the
handler returns; every accepted `new-ice-candidate` whose track source is
anything other than `DRONE` — including integers outside the two-variant
enum — has its candidate string pushed onto the `MONITOR` queue, as the
iteration's only action. -/
theorem candidate_queue_discipline :
    (Subscriber.candidateChanKeys = [.drone, .monitor] ∧
     (∀ q, Subscriber.candidateQueueCapacity q = 2) ∧
     Subscriber.candidateChanKeys.count .drone = 1 ∧
     Subscriber.candidateChanKeys.count .monitor = 1) ∧
    (∀ (sessions : Registry) (msg : Subscriber.IncomingMessage)
       (off : Subscriber.OfferOracles) (cand : Subscriber.CandidateOracles)
       (c : Subscriber.ICECandidate) (m : Meta) (s : String) (v : RelayTrack),
      msg.event = "new-ice-candidate" → cand.parsed = some c → c.meta = some m →
      m.id ≠ "" →
      Registry.load (Subscriber.sessionKey m.id m.trackSource) sessions = some v →
      cand.initCandidate = some s → m.trackSource ≠ DRONE →
      Subscriber.stepEvent sessions (.evt msg off cand) =
        ([.pushed .monitor s], false)) := by
  refine ⟨⟨rfl, ?_, by decide, by decide⟩, ?_⟩
  · intro q; cases q <;> rfl
  · intros; simp_all [Subscriber.stepEvent]

theorem candidate_queue_discipline_witness :
    Subscriber.stepEvent [("cam5", 2)] (.evt ⟨"new-ice-candidate", "n-1"⟩ offNone candOr5) =
      ([.pushed .monitor "cand-str"], false) :=
  candidate_queue_discipline.2 [("cam5", 2)] ⟨"new-ice-candidate", "n-1"⟩ offNone candOr5
    ⟨some ⟨"cam", 5⟩, "cand-json"⟩ ⟨"cam", 5⟩ "cand-str" 2
    rfl rfl rfl (by decide) rfl rfl (by decide)

end Skywalker
